import Mathlib

/-!
Verification of the entity-simulation and collision core of a wireframe
3D space shooter (Python sources under src/game/).  The Python floats are
modelled as real numbers; render-only data (wireframe models, colors,
mesh scale) is omitted since it never feeds back into simulation state.
Randomized construction (spawn positions, meteorite sizes, enemy shoot
phases) is isolated behind explicit oracle parameters, matching the
design note that all randomness be injectable.  The wall-clock sample
used by the life-sphere bob (pygame.time.get_ticks) is threaded through
as an explicit parameter named ticks.
-/

open scoped Classical

noncomputable section

namespace SpaceShooter

/-- 3D vector with real components, from game/utils/math_utils.py. -/
@[ext]
structure Vector3 where
  x : ℝ
  y : ℝ
  z : ℝ

instance : Add Vector3 :=
  ⟨fun a b => ⟨a.x + b.x, a.y + b.y, a.z + b.z⟩⟩

instance : Sub Vector3 :=
  ⟨fun a b => ⟨a.x - b.x, a.y - b.y, a.z - b.z⟩⟩

/-- Scalar multiplication on the right, as written in the source. -/
instance : HMul Vector3 ℝ Vector3 :=
  ⟨fun v s => ⟨v.x * s, v.y * s, v.z * s⟩⟩

/-- Component-wise division by a scalar. -/
instance : HDiv Vector3 ℝ Vector3 :=
  ⟨fun v s => ⟨v.x / s, v.y / s, v.z / s⟩⟩

def Vector3.zero : Vector3 := ⟨0, 0, 0⟩

def Vector3.dot (a b : Vector3) : ℝ :=
  a.x * b.x + a.y * b.y + a.z * b.z

/-- Vector magnitude, sqrt of the sum of squared components. -/
def Vector3.length (v : Vector3) : ℝ :=
  Real.sqrt (v.x ^ 2 + v.y ^ 2 + v.z ^ 2)

/-- Vector3.normalize: divide by length when positive, else zero vector. -/
def Vector3.normalize (v : Vector3) : Vector3 :=
  if v.length > 0 then v / v.length else ⟨0, 0, 0⟩

def Vector3.distance_to (a b : Vector3) : ℝ :=
  (a - b).length

/-! Configuration constants from game/config.py (only those the
simulation core reads). -/

def PLAYER_STARTING_LIVES : ℤ := 3

def PLAYER_SHOOT_COOLDOWN : ℝ := 0.3

def SHIP_ROLL_SENSITIVITY : ℝ := 1.0

def SHIP_PITCH_SENSITIVITY : ℝ := 0.5

def SHIP_ANIMATION_DAMPING : ℝ := 10.0

def MAX_SHIP_ROLL : ℝ := 15.0

def MAX_SHIP_PITCH_OFFSET : ℝ := 8.0

def ENEMY_SPEED : ℝ := 15.0

def ENEMY_SPAWN_DISTANCE : ℝ := 100.0

def ENEMY_SPAWN_INTERVAL : ℝ := 3.0

def ENEMY_SHOOT_INTERVAL : ℝ := 2.0

def ENEMY_SHOOT_RANGE : ℝ := 50.0

def ENEMY_HEALTH : ℤ := 1

def ENEMY_POINTS : ℤ := 1

def METEORITE_COLLISION_PENALTY : ℤ := -1

def LIFE_SPHERE_SIZE : ℝ := 1.5

def LIFE_SPHERE_SPAWN_INTERVAL : ℝ := 10.0

def LIFE_SPHERE_ROTATION_SPEED : ℝ := 2.0

def LASER_SPEED : ℝ := 80.0

def LASER_LIFETIME : ℝ := 5.0

def COLLISION_PUSH_BACK : ℝ := 5.0

/-! Entity variants.  Each Python class becomes a record holding the
simulation-relevant fields; update methods become pure functions.  The
base-class integration (position += velocity * dt) is inlined at the
start of each variant update, exactly as the super().update(dt) call. -/

/-- Player state, from game/entities/player.py. -/
structure Player where
  position : Vector3
  velocity : Vector3
  lives : ℤ
  shoot_cooldown : ℝ
  damage_flash_timer : ℝ
  can_shoot : Bool
  alive : Bool
  radius : ℝ

/-- A freshly constructed Player at a position. -/
def Player.mk_new (pos : Vector3) : Player :=
  { position := pos
    velocity := ⟨0, 0, 0⟩
    lives := PLAYER_STARTING_LIVES
    shoot_cooldown := 0
    damage_flash_timer := 0
    can_shoot := true
    alive := true
    radius := 2.0 }

def Player.is_alive (p : Player) : Bool := p.alive

def Player.destroy (p : Player) : Player := { p with alive := false }

/-- Player.update: base integration, then cooldown countdown (flipping
can_shoot back on once the cooldown crosses zero), then flash countdown. -/
def Player.update (dt : ℝ) (p : Player) : Player :=
  let p1 := { p with position := p.position + p.velocity * dt }
  let p2 : Player :=
    if p1.shoot_cooldown > 0 then
      let c := p1.shoot_cooldown - dt
      { p1 with shoot_cooldown := c, can_shoot := if c ≤ 0 then true else p1.can_shoot }
    else p1
  if p2.damage_flash_timer > 0 then
    { p2 with damage_flash_timer := p2.damage_flash_timer - dt }
  else p2

/-- Player.shoot: succeeds only when can_shoot, arming the cooldown. -/
def Player.shoot (p : Player) : Player × Bool :=
  if p.can_shoot then
    ({ p with can_shoot := false, shoot_cooldown := PLAYER_SHOOT_COOLDOWN }, true)
  else (p, false)

/-- Player.take_damage: lose a life, restart the damage flash, destroy at
zero or fewer lives. -/
def Player.take_damage (p : Player) : Player :=
  let p1 := { p with lives := p.lives - 1, damage_flash_timer := 0.5 }
  if p1.lives ≤ 0 then p1.destroy else p1

def Player.add_life (p : Player) : Player := { p with lives := p.lives + 1 }

/-- Enemy state, from game/entities/enemy.py. -/
structure Enemy where
  position : Vector3
  velocity : Vector3
  rotation : Vector3
  health : ℤ
  points : ℤ
  shoot_timer : ℝ
  alive : Bool
  radius : ℝ

def Enemy.is_alive (e : Enemy) : Bool := e.alive

def Enemy.destroy (e : Enemy) : Enemy := { e with alive := false }

/-- Enemy._move_toward_target: steer toward the target at ENEMY_SPEED
when beyond the 10-unit standoff distance, otherwise stop. -/
def Enemy.move_toward_target (target_pos : Vector3) (e : Enemy) : Enemy :=
  let direction := target_pos - e.position
  { e with velocity :=
      if direction.length > 10.0 then direction.normalize * ENEMY_SPEED
      else ⟨0, 0, 0⟩ }

/-- Enemy.update: base integration, AI steering toward the player, shoot
timer countdown, and a visual yaw rotation. -/
def Enemy.update (dt : ℝ) (player_position : Vector3) (e : Enemy) : Enemy :=
  let e1 := { e with position := e.position + e.velocity * dt }
  let e2 := e1.move_toward_target player_position
  let e3 := { e2 with shoot_timer := e2.shoot_timer - dt }
  { e3 with rotation := e3.rotation + (⟨0, dt * 0.5, 0⟩ : Vector3) }

/-- Enemy.can_shoot: combined check-and-reset.  Fires (and re-arms the
timer) only when the timer has expired and the target is in range. -/
def Enemy.can_shoot (player_position : Vector3) (e : Enemy) : Enemy × Bool :=
  if e.shoot_timer ≤ 0 then
    if e.position.distance_to player_position < ENEMY_SHOOT_RANGE then
      ({ e with shoot_timer := ENEMY_SHOOT_INTERVAL }, true)
    else (e, false)
  else (e, false)

def Enemy.get_shoot_direction (player_position : Vector3) (e : Enemy) : Vector3 :=
  (player_position - e.position).normalize

/-- Enemy.take_damage (the source default amount is 1; callers pass it
explicitly here). -/
def Enemy.take_damage (damage : ℤ) (e : Enemy) : Enemy :=
  let e1 := { e with health := e.health - damage }
  if e1.health ≤ 0 then e1.destroy else e1

def Enemy.get_points (e : Enemy) : ℤ := e.points

/-- Meteorite state, from game/entities/meteorite.py. -/
structure Meteorite where
  position : Vector3
  velocity : Vector3
  rotation : Vector3
  rotation_speed : Vector3
  size : ℝ
  alive : Bool
  radius : ℝ

def Meteorite.is_alive (m : Meteorite) : Bool := m.alive

/-- Meteorite.update: base integration plus slow random tumbling. -/
def Meteorite.update (dt : ℝ) (m : Meteorite) : Meteorite :=
  let m1 := { m with position := m.position + m.velocity * dt }
  { m1 with rotation := m1.rotation +
      (⟨m1.rotation_speed.x * dt, m1.rotation_speed.y * dt, m1.rotation_speed.z * dt⟩ : Vector3) }

/-- LifeSphere state, from game/entities/life_sphere.py. -/
structure LifeSphere where
  position : Vector3
  velocity : Vector3
  rotation : Vector3
  collected : Bool
  alive : Bool
  radius : ℝ

def LifeSphere.is_alive (s : LifeSphere) : Bool := s.alive

/-- LifeSphere.update: base integration, fixed-ratio rotation, and the
vertical bob driven by the absolute wall-clock sample (ticks models
pygame.time.get_ticks()). -/
def LifeSphere.update (ticks dt : ℝ) (s : LifeSphere) : LifeSphere :=
  let s1 := { s with position := s.position + s.velocity * dt }
  let s2 := { s1 with rotation := s1.rotation +
      (⟨dt * LIFE_SPHERE_ROTATION_SPEED, dt * LIFE_SPHERE_ROTATION_SPEED * 1.5,
        dt * LIFE_SPHERE_ROTATION_SPEED * 0.8⟩ : Vector3) }
  { s2 with position :=
      ⟨s2.position.x, s2.position.y + Real.sin (ticks * 0.002) * 0.01, s2.position.z⟩ }

/-- LifeSphere.collect: mark collected and destroy. -/
def LifeSphere.collect (s : LifeSphere) : LifeSphere :=
  { s with collected := true, alive := false }

/-- Projectile owner tag (owner_type strings in the source). -/
inductive Owner where
  | player
  | enemy
deriving DecidableEq

/-- Projectile state, from game/entities/projectile.py.  The visual
rotation derived from the direction is render-only and omitted. -/
structure Projectile where
  position : Vector3
  velocity : Vector3
  direction : Vector3
  owner_type : Owner
  age : ℝ
  lifetime : ℝ
  alive : Bool
  radius : ℝ

/-- Projectile constructor: normalize the firing direction and derive the
velocity from it. -/
def Projectile.mk_new (pos direction : Vector3) (owner : Owner) : Projectile :=
  let d := direction.normalize
  { position := pos
    velocity := d * LASER_SPEED
    direction := d
    owner_type := owner
    age := 0
    lifetime := LASER_LIFETIME
    alive := true
    radius := 0.3 }

def Projectile.is_alive (pr : Projectile) : Bool := pr.alive

def Projectile.destroy (pr : Projectile) : Projectile := { pr with alive := false }

/-- Projectile.update: base integration, aging, self-destruction at the
end of the lifetime. -/
def Projectile.update (dt : ℝ) (pr : Projectile) : Projectile :=
  let p1 := { pr with position := pr.position + pr.velocity * dt, age := pr.age + dt }
  if p1.age ≥ p1.lifetime then p1.destroy else p1

def Projectile.is_player_projectile (pr : Projectile) : Bool :=
  pr.owner_type = Owner.player

def Projectile.is_enemy_projectile (pr : Projectile) : Bool :=
  pr.owner_type = Owner.enemy

/-! Collision system, from game/engine/physics.py.  check_collision takes
the colliding entities only through their position and get_radius(), so
an entity is abstracted here as that pair; each variant projects into it. -/

/-- The (position, collision radius) view of an entity, as consumed by
CollisionSystem.check_collision. -/
structure Ent where
  position : Vector3
  radius : ℝ

def Player.toEnt (p : Player) : Ent := ⟨p.position, p.radius⟩

def Enemy.toEnt (e : Enemy) : Ent := ⟨e.position, e.radius⟩

def Meteorite.toEnt (m : Meteorite) : Ent := ⟨m.position, m.radius⟩

def LifeSphere.toEnt (s : LifeSphere) : Ent := ⟨s.position, s.radius⟩

def Projectile.toEnt (pr : Projectile) : Ent := ⟨pr.position, pr.radius⟩

/-- Bounding sphere for collision detection. -/
structure BoundingSphere where
  center : Vector3
  radius : ℝ

/-- BoundingSphere.intersects: strict comparison of center distance
against the sum of radii. -/
def BoundingSphere.intersects (s1 s2 : BoundingSphere) : Prop :=
  s1.center.distance_to s2.center < s1.radius + s2.radius

/-- CollisionSystem.check_collision: build the two bounding spheres and
test intersection. -/
def check_collision (a b : Ent) : Prop :=
  BoundingSphere.intersects ⟨a.position, a.radius⟩ ⟨b.position, b.radius⟩

/-- The pushed position computed by CollisionSystem.resolve_collision:
entity1 moves by push_distance along the normalized direction away from
entity2, with the fixed fallback axis when the direction degenerates. -/
def resolved_position (p1 p2 : Vector3) (push_distance : ℝ) : Vector3 :=
  let direction := p1 - p2
  let direction := if direction.length > 0 then direction.normalize
    else (⟨1, 0, 0⟩ : Vector3)
  p1 + direction * push_distance

/-- CollisionSystem.resolve_collision: only entity1 moves. -/
def resolve_collision (a b : Ent) (push_distance : ℝ) : Ent × Ent :=
  ({ a with position := resolved_position a.position b.position push_distance }, b)

/-! Simulation orchestrator, from game/main.py.  The per-tick update
(Game.update) covers ship animation, entity updates, enemy fire, timed
spawning, collision resolution and the purge of dead entities.  Input
handling, rendering and restart live outside the per-tick update. -/

/-- Camera state used by the simulation core. -/
structure Camera where
  position : Vector3
  yaw : ℝ
  pitch : ℝ

/-- Orchestrator-owned state: entity collections, spawn timers, score,
run-state flags, the camera-delta tracking used by the ship animation,
and the strafe-key state feeding the cockpit sway. -/
structure GameState where
  player : Player
  camera : Camera
  enemies : List Enemy
  meteorites : List Meteorite
  life_spheres : List LifeSphere
  projectiles : List Projectile
  score : ℤ
  enemy_spawn_timer : ℝ
  life_sphere_spawn_timer : ℝ
  paused : Bool
  game_over : Bool
  previous_camera_yaw : ℝ
  previous_camera_pitch : ℝ
  ship_roll : ℝ
  ship_pitch_offset : ℝ
  cockpit_sway : ℝ
  key_a : Bool
  key_d : Bool

/-- The random draws consumed by one tick's spawn operations (the
injectable generator of the design notes). -/
structure SpawnOracle where
  enemy_off_x : ℝ
  enemy_off_y : ℝ
  enemy_shoot_phase : ℝ
  sphere_off_x : ℝ
  sphere_off_y : ℝ
  sphere_off_z : ℝ

/-- Game._spawn_enemy: position derived from the camera plus random
offsets; the shoot timer starts at a random phase. -/
def spawn_enemy (o : SpawnOracle) (cam : Camera) : Enemy :=
  { position := ⟨cam.position.x + ENEMY_SPAWN_DISTANCE * o.enemy_off_x,
      cam.position.y + o.enemy_off_y,
      cam.position.z - ENEMY_SPAWN_DISTANCE⟩
    velocity := ⟨0, 0, 0⟩
    rotation := ⟨0, 0, 0⟩
    health := ENEMY_HEALTH
    points := ENEMY_POINTS
    shoot_timer := o.enemy_shoot_phase
    alive := true
    radius := 1.5 }

/-- Game._spawn_life_sphere: position derived from the camera plus
random offsets. -/
def spawn_life_sphere (o : SpawnOracle) (cam : Camera) : LifeSphere :=
  { position := ⟨cam.position.x + o.sphere_off_x,
      cam.position.y + o.sphere_off_y,
      cam.position.z - o.sphere_off_z⟩
    velocity := ⟨0, 0, 0⟩
    rotation := ⟨0, 0, 0⟩
    collected := false
    alive := true
    radius := LIFE_SPHERE_SIZE }

/-- The while loops normalizing the yaw delta: subtract 360 while the
value exceeds 180. -/
def wrap_above (x : ℝ) : ℝ :=
  if h : x > 180 then wrap_above (x - 360) else x
termination_by (⌈x⌉).toNat
decreasing_by
  have h1 : (181 : ℤ) ≤ ⌈x⌉ := by
    have : (180 : ℤ) < ⌈x⌉ := Int.lt_ceil.mpr (by exact_mod_cast h)
    omega
  have h2 : ⌈x - 360⌉ = ⌈x⌉ - 360 := by simp
  simp only [h2]
  omega

/-- The second while loop: add 360 while the value is below -180. -/
def wrap_below (x : ℝ) : ℝ :=
  if h : x < -180 then wrap_below (x + 360) else x
termination_by (⌈-x⌉).toNat
decreasing_by
  have h1 : (181 : ℤ) ≤ ⌈-x⌉ := by
    have : (180 : ℤ) < ⌈-x⌉ := Int.lt_ceil.mpr (by push_cast; linarith)
    omega
  have h2 : ⌈-(x + 360)⌉ = ⌈-x⌉ - 360 := by
    have := Int.ceil_sub_int (-x) (360 : ℤ)
    rw [show -(x + 360) = -x - (360:ℤ) by push_cast; ring]
    exact this
  simp only [h2]
  omega

/-- The yaw-delta wraparound applied by Game._update_ship_animation
before the delta is used. -/
def wrap_yaw_delta (x : ℝ) : ℝ := wrap_below (wrap_above x)

/-- Game._update_ship_animation: derive banking/pitch/sway scalars from
the camera deltas; touches only the animation fields and the previous
camera sample. -/
def update_ship_animation (dt : ℝ) (g : GameState) : GameState :=
  let yaw_delta := wrap_yaw_delta (g.camera.yaw - g.previous_camera_yaw)
  let pitch_delta := g.camera.pitch - g.previous_camera_pitch
  let yaw_delta := max (-10) (min 10 yaw_delta)
  let pitch_delta := max (-10) (min 10 pitch_delta)
  let target_roll := -yaw_delta * SHIP_ROLL_SENSITIVITY
  let target_roll := max (-MAX_SHIP_ROLL) (min MAX_SHIP_ROLL target_roll)
  let damping_factor := min 1.0 (SHIP_ANIMATION_DAMPING * dt)
  let roll1 := g.ship_roll + (target_roll - g.ship_roll) * damping_factor
  let roll2 := max (-MAX_SHIP_ROLL) (min MAX_SHIP_ROLL roll1)
  let target_pitch := pitch_delta * SHIP_PITCH_SENSITIVITY
  let target_pitch := max (-MAX_SHIP_PITCH_OFFSET) (min MAX_SHIP_PITCH_OFFSET target_pitch)
  let pitch1 := g.ship_pitch_offset + (target_pitch - g.ship_pitch_offset) * damping_factor
  let pitch2 := max (-MAX_SHIP_PITCH_OFFSET) (min MAX_SHIP_PITCH_OFFSET pitch1)
  let roll3 := if |yaw_delta| < 0.5 then roll2 * 0.92 else roll2
  let pitch3 := if |pitch_delta| < 0.5 then pitch2 * 0.92 else pitch2
  let roll4 := if |roll3| < 0.1 then 0 else roll3
  let pitch4 := if |pitch3| < 0.1 then 0 else pitch3
  let target_sway : ℝ := if g.key_a then -40.0 else if g.key_d then 40.0 else 0.0
  let sway := g.cockpit_sway + (target_sway - g.cockpit_sway) * (5.0 * dt)
  { g with ship_roll := roll4
           ship_pitch_offset := pitch4
           previous_camera_yaw := g.camera.yaw
           previous_camera_pitch := g.camera.pitch
           cockpit_sway := sway }

/-! Collision-resolution phases of Game._handle_collisions, translated
loop by loop.  Entities are only flagged dead during these phases; the
lists themselves are compacted by the later cleanup pass. -/

/-- Loop 1: player vs each meteorite.  On a hit the score takes the
penalty, the player is pushed back, and the camera snaps to the player's
new position.  The player position evolves as the loop advances. -/
def player_vs_meteorites (p : Player) (cam : Camera) (score : ℤ) :
    List Meteorite → Player × Camera × ℤ
  | [] => (p, cam, score)
  | m :: rest =>
    if check_collision p.toEnt m.toEnt then
      let score1 := score + METEORITE_COLLISION_PENALTY
      let p1 := { p with position := resolved_position p.position m.position COLLISION_PUSH_BACK }
      let cam1 := { cam with position := p1.position }
      player_vs_meteorites p1 cam1 score1 rest
    else
      player_vs_meteorites p cam score rest

/-- Loop 2: player vs each life sphere.  Every hit grants a life and
collects the sphere; this loop has no early exit. -/
def player_vs_spheres (p : Player) : List LifeSphere → Player × List LifeSphere
  | [] => (p, [])
  | s :: rest =>
    if check_collision p.toEnt s.toEnt then
      let r := player_vs_spheres p.add_life rest
      (r.1, s.collect :: r.2)
    else
      let r := player_vs_spheres p rest
      (r.1, s :: r.2)

/-- Loop 3: player vs each enemy.  Contact damages the player and always
destroys the enemy; no early exit. -/
def player_vs_enemies (p : Player) : List Enemy → Player × List Enemy
  | [] => (p, [])
  | e :: rest =>
    if check_collision p.toEnt e.toEnt then
      let r := player_vs_enemies p.take_damage rest
      (r.1, e.destroy :: r.2)
    else
      let r := player_vs_enemies p rest
      (r.1, e :: r.2)

/-- Inner loop of the projectile phase: a player projectile against the
enemy list.  The first colliding enemy is damaged, the projectile is
destroyed, points are awarded only if that enemy died from this hit, and
the loop breaks. -/
def proj_vs_enemies (pr : Projectile) (score : ℤ) :
    List Enemy → List Enemy × Projectile × ℤ
  | [] => ([], pr, score)
  | e :: rest =>
    if check_collision pr.toEnt e.toEnt then
      let e1 := e.take_damage 1
      let score1 := if e1.is_alive then score else score + e1.get_points
      (e1 :: rest, pr.destroy, score1)
    else
      let r := proj_vs_enemies pr score rest
      (e :: r.1, r.2)

/-- Inner loop: a player projectile against the life-sphere list.  The
first colliding sphere grants a life and is collected, the projectile is
destroyed, and the loop breaks. -/
def proj_vs_spheres (pr : Projectile) (p : Player) :
    List LifeSphere → List LifeSphere × Projectile × Player
  | [] => ([], pr, p)
  | s :: rest =>
    if check_collision pr.toEnt s.toEnt then
      (s.collect :: rest, pr.destroy, p.add_life)
    else
      let r := proj_vs_spheres pr p rest
      (s :: r.1, r.2)

/-- Inner loop: a projectile against the meteorite list.  The first hit
destroys the projectile only and the loop breaks; meteorites are never
modified. -/
def proj_vs_meteorites (pr : Projectile) : List Meteorite → Projectile
  | [] => pr
  | m :: rest =>
    if check_collision pr.toEnt m.toEnt then pr.destroy
    else proj_vs_meteorites pr rest

/-- Loop 4: each projectile in order.  A player projectile runs the
enemy, life-sphere and meteorite scans in sequence (note: the scans
after a hit are not skipped, only each scan's own loop breaks); an enemy
projectile tests the player and then the meteorite scan. -/
def projectiles_phase (ms : List Meteorite) :
    List Projectile → List Enemy → List LifeSphere → Player → ℤ →
    List Projectile × List Enemy × List LifeSphere × Player × ℤ
  | [], es, ss, p, score => ([], es, ss, p, score)
  | pr :: rest, es, ss, p, score =>
    if pr.is_player_projectile then
      let r1 := proj_vs_enemies pr score es
      let r2 := proj_vs_spheres r1.2.1 p ss
      let pr3 := proj_vs_meteorites r2.2.1 ms
      let r3 := projectiles_phase ms rest r1.1 r2.1 r2.2.2 r1.2.2
      (pr3 :: r3.1, r3.2)
    else
      let pp :=
        if check_collision pr.toEnt p.toEnt then (p.take_damage, pr.destroy) else (p, pr)
      let pr2 := proj_vs_meteorites pp.2 ms
      let r3 := projectiles_phase ms rest es ss pp.1 score
      (pr2 :: r3.1, r3.2)

/-- Game._handle_collisions: the four loops in their fixed order, then
the game-over transition when the player is no longer alive.  (The
intermediate results are kept as tuples r1..r4 and consumed through
projections.) -/
def handle_collisions (g : GameState) : GameState :=
  let r1 := player_vs_meteorites g.player g.camera g.score g.meteorites
  let r2 := player_vs_spheres r1.1 g.life_spheres
  let r3 := player_vs_enemies r2.1 g.enemies
  let r4 := projectiles_phase g.meteorites g.projectiles r3.2 r2.2 r3.1 r1.2.2
  { g with player := r4.2.2.2.1
           camera := r1.2.1
           enemies := r4.2.1
           life_spheres := r4.2.2.1
           projectiles := r4.1
           score := r4.2.2.2.2
           game_over := if (r4.2.2.2.1).is_alive then g.game_over else true }

/-- Game._cleanup_entities: purge dead enemies, life spheres and
projectiles.  The meteorite list is not filtered. -/
def cleanup_entities (g : GameState) : GameState :=
  { g with enemies := g.enemies.filter Enemy.is_alive
           life_spheres := g.life_spheres.filter LifeSphere.is_alive
           projectiles := g.projectiles.filter Projectile.is_alive }

/-- The enemy update loop: each enemy is updated (with the player's
position) and may fire, appending an enemy projectile spawned at its
position toward the player. -/
def enemies_step (dt : ℝ) (player_position : Vector3) :
    List Enemy → List Enemy × List Projectile
  | [] => ([], [])
  | e :: rest =>
    let e1 := e.update dt player_position
    let cs := e1.can_shoot player_position
    let new_projs :=
      if cs.2 then
        [Projectile.mk_new cs.1.position (cs.1.get_shoot_direction player_position) Owner.enemy]
      else []
    let r := enemies_step dt player_position rest
    (cs.1 :: r.1, new_projs ++ r.2)

/-- Game._update_spawning: advance both timers; a timer reaching its
interval resets to zero and spawns. -/
def update_spawning (o : SpawnOracle) (dt : ℝ) (g : GameState) : GameState :=
  let t1 := g.enemy_spawn_timer + dt
  let g1 :=
    if t1 ≥ ENEMY_SPAWN_INTERVAL then
      { g with enemy_spawn_timer := 0, enemies := g.enemies ++ [spawn_enemy o g.camera] }
    else { g with enemy_spawn_timer := t1 }
  let t2 := g1.life_sphere_spawn_timer + dt
  if t2 ≥ LIFE_SPHERE_SPAWN_INTERVAL then
    { g1 with life_sphere_spawn_timer := 0,
              life_spheres := g1.life_spheres ++ [spawn_life_sphere o g1.camera] }
  else { g1 with life_sphere_spawn_timer := t2 }

/-- Game.update: one full simulation tick.  Skipped entirely while
paused or after game over; otherwise ship animation, player update,
enemy updates (which may append enemy fire to the projectile list before
the projectile update loop runs), meteorite, life-sphere and projectile
updates, spawning, collision resolution, and the purge. -/
def Game.update (o : SpawnOracle) (ticks dt : ℝ) (g : GameState) : GameState :=
  if g.paused || g.game_over then g
  else
    let g1 := update_ship_animation dt g
    let player1 := g1.player.update dt
    let es_fired := enemies_step dt player1.position g1.enemies
    let enemies1 := es_fired.1
    let projectiles1 := g1.projectiles ++ es_fired.2
    let meteorites1 := g1.meteorites.map (Meteorite.update dt)
    let spheres1 := g1.life_spheres.map (LifeSphere.update ticks dt)
    let projectiles2 := projectiles1.map (Projectile.update dt)
    let g2 := { g1 with player := player1
                        enemies := enemies1
                        meteorites := meteorites1
                        life_spheres := spheres1
                        projectiles := projectiles2 }
    let g3 := update_spawning o dt g2
    let g4 := handle_collisions g3
    cleanup_entities g4

/-! General-purpose lemmas about the definitions above. -/

/-! Claim theorems. -/

/-! Traces of Player.shoot / Player.update calls, for the cooldown
state-machine claim. -/

/-- One call in a player interaction trace. -/
inductive PlayerOp where
  | fire
  | tick (dt : ℝ)

/-- Apply one call (a failed or successful shoot just keeps the
post-call state; update uses the given dt). -/
def apply_op (p : Player) : PlayerOp → Player
  | PlayerOp.fire => (p.shoot).1
  | PlayerOp.tick dt => p.update dt

/-- Run a whole trace of calls. -/
def run_ops (p : Player) : List PlayerOp → Player
  | [] => p
  | op :: rest => run_ops (apply_op p op) rest

/-- The total dt accumulated by the update calls of a trace. -/
def elapsed : List PlayerOp → ℝ
  | [] => 0
  | PlayerOp.fire :: rest => elapsed rest
  | PlayerOp.tick dt :: rest => dt + elapsed rest

/-- All update steps of the trace use a nonnegative dt. -/
def ops_nonneg (ops : List PlayerOp) : Prop :=
  ∀ dt, PlayerOp.tick dt ∈ ops → 0 ≤ dt

/-- The trace contains no shoot calls. -/
def ops_updates_only (ops : List PlayerOp) : Prop :=
  ∀ op ∈ ops, op ≠ PlayerOp.fire

/-- A concrete enemy with its shoot timer still counting down. -/
def cooling_enemy : Enemy :=
  { position := ⟨0, 0, 0⟩
    velocity := ⟨0, 0, 0⟩
    rotation := ⟨0, 0, 0⟩
    health := 1
    points := 1
    shoot_timer := 1.5
    alive := true
    radius := 1.5 }

/-- A list differs from another in at most one (index) position. -/
def changes_at_most_one {α : Type} (l l' : List α) : Prop :=
  l'.length = l.length ∧ ∃ i : ℕ, ∀ j : ℕ, j ≠ i → l'[j]? = l[j]?

/-- Player far from the action. -/
def far_player : Player := Player.mk_new ⟨0, 0, 100⟩

/-- An enemy sitting at the origin. -/
def origin_enemy : Enemy :=
  { position := ⟨0, 0, 0⟩
    velocity := ⟨0, 0, 0⟩
    rotation := ⟨0, 0, 0⟩
    health := 1
    points := 1
    shoot_timer := 5
    alive := true
    radius := 1.5 }

/-- A life sphere also sitting at the origin. -/
def origin_sphere : LifeSphere :=
  { position := ⟨0, 0, 0⟩
    velocity := ⟨0, 0, 0⟩
    rotation := ⟨0, 0, 0⟩
    collected := false
    alive := true
    radius := 1.5 }

/-- A player projectile at the origin, overlapping both. -/
def origin_projectile : Projectile :=
  { position := ⟨0, 0, 0⟩
    velocity := ⟨0, 0, -80⟩
    direction := ⟨0, 0, -1⟩
    owner_type := Owner.player
    age := 0
    lifetime := 5
    alive := true
    radius := 0.3 }

/-- A state in which one player projectile overlaps an enemy and a life
sphere at once, with the player far away from all of them. -/
def two_hit_state : GameState :=
  { player := far_player
    camera := ⟨⟨0, 0, 100⟩, 0, 0⟩
    enemies := [origin_enemy]
    meteorites := []
    life_spheres := [origin_sphere]
    projectiles := [origin_projectile]
    score := 0
    enemy_spawn_timer := 0
    life_sphere_spawn_timer := 0
    paused := false
    game_over := false
    previous_camera_yaw := 0
    previous_camera_pitch := 0
    ship_roll := 0
    ship_pitch_offset := 0
    cockpit_sway := 0
    key_a := false
    key_d := false }

/-! Meteorite invariance lemmas. -/

/-! Behaviour of one tick under dt = 0. -/

/-- The wall-clock bob applied to a life sphere by an update tick: only
the y coordinate moves, by sin(0.002 ticks) / 100. -/
def bob (ticks : ℝ) (s : LifeSphere) : LifeSphere :=
  { s with position :=
      ⟨s.position.x, s.position.y + Real.sin (ticks * 0.002) * 0.01, s.position.z⟩ }

/-- A state with nothing in it but the player. -/
def quiet_state : GameState :=
  { player := Player.mk_new ⟨0, 0, 0⟩
    camera := ⟨⟨0, 0, 5⟩, 0, 0⟩
    enemies := []
    meteorites := []
    life_spheres := []
    projectiles := []
    score := 0
    enemy_spawn_timer := 0
    life_sphere_spawn_timer := 0
    paused := false
    game_over := false
    previous_camera_yaw := 0
    previous_camera_pitch := 0
    ship_roll := 0
    ship_pitch_offset := 0
    cockpit_sway := 0
    key_a := false
    key_d := false }

/-- The oracle whose draws are all zero (never consulted in these
scenarios since no spawn fires). -/
def zero_oracle : SpawnOracle := ⟨0, 0, 0, 0, 0, 0⟩

/-- A life sphere fifty units in front of the origin. -/
def far_sphere : LifeSphere :=
  { position := ⟨0, 0, -50⟩
    velocity := ⟨0, 0, 0⟩
    rotation := ⟨0, 0, 0⟩
    collected := false
    alive := true
    radius := 1.5 }

/-- A running state with a single distant life sphere. -/
def bob_state : GameState :=
  { player := Player.mk_new ⟨0, 0, 0⟩
    camera := ⟨⟨0, 0, 5⟩, 0, 0⟩
    enemies := []
    meteorites := []
    life_spheres := [far_sphere]
    projectiles := []
    score := 0
    enemy_spawn_timer := 0
    life_sphere_spawn_timer := 0
    paused := false
    game_over := false
    previous_camera_yaw := 0
    previous_camera_pitch := 0
    ship_roll := 0
    ship_pitch_offset := 0
    cockpit_sway := 0
    key_a := false
    key_d := false }

theorem Vector3.add_def (a b : Vector3) :
    a + b = ⟨a.x + b.x, a.y + b.y, a.z + b.z⟩ := rfl

theorem Vector3.sub_def (a b : Vector3) :
    a - b = ⟨a.x - b.x, a.y - b.y, a.z - b.z⟩ := rfl

theorem Vector3.mul_def (v : Vector3) (s : ℝ) :
    v * s = ⟨v.x * s, v.y * s, v.z * s⟩ := rfl

theorem Vector3.div_def (v : Vector3) (s : ℝ) :
    v / s = ⟨v.x / s, v.y / s, v.z / s⟩ := rfl

theorem Vector3.add_mul_zero (v w : Vector3) : v + w * (0 : ℝ) = v := by
  ext <;> simp [Vector3.add_def, Vector3.mul_def]

theorem Vector3.length_nonneg (v : Vector3) : 0 ≤ v.length :=
  Real.sqrt_nonneg _

theorem Vector3.length_eq_zero_iff (v : Vector3) : v.length = 0 ↔ v = ⟨0, 0, 0⟩ := by
  constructor
  · intro h
    have hs : v.x ^ 2 + v.y ^ 2 + v.z ^ 2 = 0 := by
      have hnn : 0 ≤ v.x ^ 2 + v.y ^ 2 + v.z ^ 2 := by positivity
      have := Real.sqrt_eq_zero hnn |>.mp h
      exact this
    have hx : v.x = 0 := by nlinarith [sq_nonneg v.x, sq_nonneg v.y, sq_nonneg v.z]
    have hy : v.y = 0 := by nlinarith [sq_nonneg v.x, sq_nonneg v.y, sq_nonneg v.z]
    have hz : v.z = 0 := by nlinarith [sq_nonneg v.x, sq_nonneg v.y, sq_nonneg v.z]
    ext <;> simp [hx, hy, hz]
  · intro h
    subst h
    simp [Vector3.length]

theorem Vector3.length_pos_iff (v : Vector3) : 0 < v.length ↔ v ≠ ⟨0, 0, 0⟩ := by
  constructor
  · intro h hv
    rw [(Vector3.length_eq_zero_iff v).mpr hv] at h
    exact lt_irrefl _ h
  · intro h
    rcases lt_or_eq_of_le (Vector3.length_nonneg v) with hlt | heq
    · exact hlt
    · exact absurd ((Vector3.length_eq_zero_iff v).mp heq.symm) h

/-- Length of a scaled-down vector: dividing by a positive scalar divides
the length by that scalar. -/
theorem Vector3.length_div (v : Vector3) (c : ℝ) (hc : 0 < c) :
    (v / c).length = v.length / c := by
  have hS : 0 ≤ v.x ^ 2 + v.y ^ 2 + v.z ^ 2 := by positivity
  have hL : v.length ^ 2 = v.x ^ 2 + v.y ^ 2 + v.z ^ 2 := Real.sq_sqrt hS
  have hrw : (v.x / c) ^ 2 + (v.y / c) ^ 2 + (v.z / c) ^ 2 = (v.length / c) ^ 2 := by
    field_simp
    linarith [hL]
  rw [Vector3.length, Vector3.div_def]
  simp only
  rw [hrw, Real.sqrt_sq (div_nonneg (Vector3.length_nonneg v) hc.le)]

/-- Distance between two points that differ only in the z coordinate. -/
theorem Vector3.distance_to_z (a b c c' : ℝ) :
    Vector3.distance_to ⟨a, b, c⟩ ⟨a, b, c'⟩ = |c - c'| := by
  rw [Vector3.distance_to, Vector3.sub_def, Vector3.length]
  simp only
  rw [show a - a = 0 by ring, show b - b = 0 by ring]
  rw [show (0:ℝ) ^ 2 + 0 ^ 2 + (c - c') ^ 2 = (c - c') ^ 2 by ring]
  exact Real.sqrt_sq_eq_abs _

/-- The distance between two points is at least the absolute difference of
their z coordinates. -/
theorem Vector3.distance_to_ge_z (a b : Vector3) :
    |a.z - b.z| ≤ Vector3.distance_to a b := by
  rw [Vector3.distance_to, Vector3.sub_def, Vector3.length]
  simp only
  rw [show |a.z - b.z| = Real.sqrt ((a.z - b.z) ^ 2) from (Real.sqrt_sq_eq_abs _).symm]
  apply Real.sqrt_le_sqrt
  nlinarith [sq_nonneg (a.x - b.x), sq_nonneg (a.y - b.y)]

theorem Vector3.sub_eq_zero_iff (a b : Vector3) : a - b = ⟨0, 0, 0⟩ ↔ a = b := by
  constructor
  · intro h
    have hx := congrArg Vector3.x h
    have hy := congrArg Vector3.y h
    have hz := congrArg Vector3.z h
    simp [Vector3.sub_def] at hx hy hz
    ext
    · linarith
    · linarith
    · linarith
  · intro h
    subst h
    ext <;> simp [Vector3.sub_def]

theorem wrap_above_of_le {x : ℝ} (h : ¬ x > 180) : wrap_above x = x := by
  rw [wrap_above]
  simp [h]

theorem wrap_above_of_gt {x : ℝ} (h : x > 180) : wrap_above x = wrap_above (x - 360) := by
  rw [wrap_above]
  simp [h]

theorem wrap_below_of_ge {x : ℝ} (h : ¬ x < -180) : wrap_below x = x := by
  rw [wrap_below]
  simp [h]

theorem wrap_below_of_lt {x : ℝ} (h : x < -180) : wrap_below x = wrap_below (x + 360) := by
  rw [wrap_below]
  simp [h]

theorem wrap_above_le (x : ℝ) : wrap_above x ≤ 180 := by
  induction x using wrap_above.induct with
  | case1 x h ih =>
    rw [wrap_above_of_gt h]
    exact ih
  | case2 x h =>
    rw [wrap_above_of_le h]
    linarith [not_lt.mp h]

theorem wrap_below_ge (x : ℝ) : -180 ≤ wrap_below x := by
  induction x using wrap_below.induct with
  | case1 x h ih =>
    rw [wrap_below_of_lt h]
    exact ih
  | case2 x h =>
    rw [wrap_below_of_ge h]
    linarith [not_lt.mp h]

theorem wrap_below_le_aux (x : ℝ) : x ≤ 180 → wrap_below x ≤ 180 := by
  induction x using wrap_below.induct with
  | case1 x h ih =>
    intro _
    rw [wrap_below_of_lt h]
    exact ih (by linarith)
  | case2 x h =>
    intro hx
    rw [wrap_below_of_ge h]
    exact hx

theorem wrap_below_le (x : ℝ) (hx : x ≤ 180) : wrap_below x ≤ 180 :=
  wrap_below_le_aux x hx

/-- C1: check_collision holds exactly when the Euclidean distance between
the two positions is strictly below the sum of the collision radii; in
particular, at exact tangency (distance equal to the sum) it fails. -/
theorem C1_check_collision_strict (a b : Ent) :
    (check_collision a b ↔ a.position.distance_to b.position < a.radius + b.radius) ∧
    (a.position.distance_to b.position = a.radius + b.radius → ¬ check_collision a b) := by
  constructor
  · exact Iff.rfl
  · intro heq hc
    rw [check_collision, BoundingSphere.intersects] at hc
    simp only at hc
    rw [heq] at hc
    exact lt_irrefl _ hc

/-- C1 witness: two unit-radius entities whose centers are exactly two
units apart (tangency) do not collide. -/
theorem C1_check_collision_strict_witness :
    ¬ check_collision ⟨⟨0, 0, 0⟩, 1⟩ ⟨⟨0, 0, 2⟩, 1⟩ :=
  (C1_check_collision_strict ⟨⟨0, 0, 0⟩, 1⟩ ⟨⟨0, 0, 2⟩, 1⟩).2
    (by rw [show ((⟨⟨0, 0, 0⟩, 1⟩ : Ent)).position = (⟨0, 0, 0⟩ : Vector3) from rfl,
          show ((⟨⟨0, 0, 2⟩, 1⟩ : Ent)).position = (⟨0, 0, 2⟩ : Vector3) from rfl,
          Vector3.distance_to_z]
        norm_num)

/-- C7: normalize is total - the zero vector normalizes to the zero
vector, and any other vector normalizes to itself divided by its length,
which has length one. -/
theorem C7_normalize_total (v : Vector3) :
    Vector3.normalize ⟨0, 0, 0⟩ = ⟨0, 0, 0⟩ ∧
    (v ≠ ⟨0, 0, 0⟩ → v.normalize = v / v.length ∧ (v.normalize).length = 1) := by
  constructor
  · rw [Vector3.normalize]
    have h0 : Vector3.length ⟨0, 0, 0⟩ = 0 := (Vector3.length_eq_zero_iff _).mpr rfl
    rw [h0]
    simp
  · intro hv
    have hpos : 0 < v.length := (Vector3.length_pos_iff v).mpr hv
    have hnorm : v.normalize = v / v.length := by
      rw [Vector3.normalize, if_pos hpos]
    refine ⟨hnorm, ?_⟩
    rw [hnorm, Vector3.length_div v v.length hpos, div_self (ne_of_gt hpos)]

/-- C7 witness: the (3,4,0) vector is nonzero and its normalization has
length one. -/
theorem C7_normalize_total_witness :
    (Vector3.normalize ⟨3, 4, 0⟩).length = 1 :=
  ((C7_normalize_total ⟨3, 4, 0⟩).2
    (by
      intro h
      have := congrArg Vector3.x h
      norm_num at this)).2

/-- C8: resolve_collision moves only entity a, by push_distance along
the normalized direction from b toward a, and along the fixed fallback
axis (1,0,0) when the two positions coincide exactly. -/
theorem C8_resolve_collision_spec (a b : Ent) (push_distance : ℝ) :
    (resolve_collision a b push_distance).2 = b ∧
    (resolve_collision a b push_distance).1.radius = a.radius ∧
    (a.position ≠ b.position →
      (resolve_collision a b push_distance).1.position =
        a.position + (a.position - b.position).normalize * push_distance) ∧
    (a.position = b.position →
      (resolve_collision a b push_distance).1.position =
        a.position + (⟨1, 0, 0⟩ : Vector3) * push_distance) := by
  refine ⟨rfl, rfl, ?_, ?_⟩
  · intro hne
    have hsub : a.position - b.position ≠ ⟨0, 0, 0⟩ := by
      intro h
      exact hne ((Vector3.sub_eq_zero_iff _ _).mp h)
    have hpos : 0 < (a.position - b.position).length :=
      (Vector3.length_pos_iff _).mpr hsub
    rw [resolve_collision]
    simp only [resolved_position, if_pos hpos]
  · intro heq
    have hsub : a.position - b.position = ⟨0, 0, 0⟩ :=
      (Vector3.sub_eq_zero_iff _ _).mpr heq
    have hz : (a.position - b.position).length = 0 :=
      (Vector3.length_eq_zero_iff _).mpr hsub
    rw [resolve_collision]
    simp only [resolved_position, hz]
    norm_num

/-- C8 witness: two coincident entities resolve along the fallback axis. -/
theorem C8_resolve_collision_spec_witness :
    (resolve_collision ⟨⟨2, 3, 4⟩, 1⟩ ⟨⟨2, 3, 4⟩, 1⟩ 5).1.position =
      (⟨2, 3, 4⟩ : Vector3) + (⟨1, 0, 0⟩ : Vector3) * (5 : ℝ) :=
  (C8_resolve_collision_spec ⟨⟨2, 3, 4⟩, 1⟩ ⟨⟨2, 3, 4⟩, 1⟩ 5).2.2.2 rfl

/-- C9 counterexample: a raw yaw delta of exactly -180 degrees (for
example previous yaw 0, new yaw -180) is wrapped to -180, which lies
outside the claimed half-open interval (-180, 180]. -/
theorem C9_wrap_counterexample :
    wrap_yaw_delta (-180) = -180 ∧ ¬ (-180 < wrap_yaw_delta (-180)) := by
  have h : wrap_yaw_delta (-180) = -180 := by
    rw [wrap_yaw_delta, wrap_above_of_le (by norm_num), wrap_below_of_ge (by norm_num)]
  exact ⟨h, by rw [h]; norm_num⟩

/-- C9 (amended): the yaw delta is wrapped into the closed interval
[-180, 180] (the endpoint -180 is reachable), and the boundary-crossing
example - previous yaw 179, new yaw -179, raw delta -358 - wraps to +2. -/
theorem C9_wrap_range (x : ℝ) :
    (-180 ≤ wrap_yaw_delta x ∧ wrap_yaw_delta x ≤ 180) ∧
    wrap_yaw_delta ((-179) - 179) = 2 := by
  refine ⟨⟨wrap_below_ge _, wrap_below_le _ (wrap_above_le x)⟩, ?_⟩
  rw [show ((-179 : ℝ) - 179) = -358 by norm_num, wrap_yaw_delta,
    wrap_above_of_le (by norm_num), wrap_below_of_lt (by norm_num),
    show ((-358 : ℝ) + 360) = 2 by norm_num, wrap_below_of_ge (by norm_num)]

theorem elapsed_nonneg {ops : List PlayerOp} (h : ops_nonneg ops) : 0 ≤ elapsed ops := by
  induction ops with
  | nil => simp [elapsed]
  | cons op rest ih =>
    have hrest : ops_nonneg rest := fun dt hdt => h dt (List.mem_cons_of_mem _ hdt)
    cases op with
    | fire => simpa [elapsed] using ih hrest
    | tick dt =>
      have hdt : 0 ≤ dt := h dt (List.mem_cons_self _ _)
      have := ih hrest
      simp only [elapsed]
      linarith

/-- While the armed cooldown exceeds the dt still to be accumulated, the
can_shoot flag stays off and the cooldown just counts down. -/
theorem cooldown_invariant (ops : List PlayerOp) :
    ∀ p : Player, ops_nonneg ops → p.can_shoot = false →
      elapsed ops < p.shoot_cooldown →
      (run_ops p ops).can_shoot = false ∧
      (run_ops p ops).shoot_cooldown = p.shoot_cooldown - elapsed ops := by
  induction ops with
  | nil =>
    intro p _ hcs _
    simp [run_ops, elapsed, hcs]
  | cons op rest ih =>
    intro p hnn hcs helap
    have hnn_rest : ops_nonneg rest := fun dt hdt => hnn dt (List.mem_cons_of_mem _ hdt)
    have helap_nonneg : 0 ≤ elapsed rest := elapsed_nonneg hnn_rest
    cases op with
    | fire =>
      have hfail : p.shoot = (p, false) := by
        rw [Player.shoot, hcs]
        simp
      have happ : apply_op p PlayerOp.fire = p := by
        simp [apply_op, hfail]
      simp only [run_ops, happ, elapsed] at *
      exact ih p hnn_rest hcs helap
    | tick dt =>
      have hdt : 0 ≤ dt := hnn dt (List.mem_cons_self _ _)
      have helap' : dt + elapsed rest < p.shoot_cooldown := by
        simpa [elapsed] using helap
      have hcool_pos : p.shoot_cooldown > 0 := by linarith
      have hcool_after : p.shoot_cooldown - dt > 0 := by linarith
      have hupd : p.update dt =
          { p with position := p.position + p.velocity * dt,
                   shoot_cooldown := p.shoot_cooldown - dt,
                   damage_flash_timer :=
                     if p.damage_flash_timer > 0 then p.damage_flash_timer - dt
                     else p.damage_flash_timer } := by
        rw [Player.update]
        simp only [if_pos hcool_pos, if_neg (not_le.mpr hcool_after), hcs]
        by_cases hf : p.damage_flash_timer > 0
        · simp [hf]
        · simp [hf]
      have := ih (p.update dt) hnn_rest (by rw [hupd]; exact hcs) (by rw [hupd]; simp; linarith)
      simp only [run_ops, apply_op, elapsed]
      rw [this.1, this.2, hupd]
      constructor
      · rfl
      · simp
        ring

/-- Once can_shoot is on with an exhausted cooldown, update calls keep
it on (only a successful shoot call can turn it off again). -/
theorem can_shoot_stays (ops : List PlayerOp) :
    ∀ p : Player, ops_updates_only ops → p.can_shoot = true → p.shoot_cooldown ≤ 0 →
      (run_ops p ops).can_shoot = true := by
  induction ops with
  | nil =>
    intro p _ hcs _
    simpa [run_ops] using hcs
  | cons op rest ih =>
    intro p honly hcs hcool
    have honly_rest : ops_updates_only rest := fun o ho => honly o (List.mem_cons_of_mem _ ho)
    cases op with
    | fire => exact absurd rfl (honly PlayerOp.fire (List.mem_cons_self _ _))
    | tick dt =>
      have hupd : p.update dt =
          { p with position := p.position + p.velocity * dt,
                   damage_flash_timer :=
                     if p.damage_flash_timer > 0 then p.damage_flash_timer - dt
                     else p.damage_flash_timer } := by
        rw [Player.update]
        simp only [if_neg (not_lt.mpr hcool)]
        by_cases hf : p.damage_flash_timer > 0
        · simp [hf]
        · simp [hf]
      simp only [run_ops, apply_op]
      exact ih (p.update dt) honly_rest (by rw [hupd]; exact hcs) (by rw [hupd]; exact hcool)

/-- From an armed cooldown, once the accumulated update dt reaches it,
can_shoot has flipped back on (pure-update traces). -/
theorem cooldown_elapses (ops : List PlayerOp) :
    ∀ p : Player, ops_nonneg ops → ops_updates_only ops → p.can_shoot = false →
      0 < p.shoot_cooldown → p.shoot_cooldown ≤ elapsed ops →
      (run_ops p ops).can_shoot = true := by
  induction ops with
  | nil =>
    intro p _ _ _ hpos hle
    simp only [elapsed] at hle
    linarith
  | cons op rest ih =>
    intro p hnn honly hcs hpos hle
    have hnn_rest : ops_nonneg rest := fun dt hdt => hnn dt (List.mem_cons_of_mem _ hdt)
    have honly_rest : ops_updates_only rest := fun o ho => honly o (List.mem_cons_of_mem _ ho)
    cases op with
    | fire => exact absurd rfl (honly PlayerOp.fire (List.mem_cons_self _ _))
    | tick dt =>
      have hdt : 0 ≤ dt := hnn dt (List.mem_cons_self _ _)
      have hupd : p.update dt =
          { p with position := p.position + p.velocity * dt,
                   shoot_cooldown := p.shoot_cooldown - dt,
                   can_shoot := if p.shoot_cooldown - dt ≤ 0 then true else p.can_shoot,
                   damage_flash_timer :=
                     if p.damage_flash_timer > 0 then p.damage_flash_timer - dt
                     else p.damage_flash_timer } := by
        rw [Player.update]
        simp only [if_pos hpos]
        by_cases hf : p.damage_flash_timer > 0
        · simp [hf]
        · simp [hf]
      simp only [run_ops, apply_op]
      by_cases hdone : p.shoot_cooldown - dt ≤ 0
      · apply can_shoot_stays rest (p.update dt) honly_rest
        · rw [hupd]
          simp [hdone]
        · rw [hupd]
          exact hdone
      · apply ih (p.update dt) hnn_rest honly_rest
        · rw [hupd]
          simp [hdone, hcs]
        · rw [hupd]
          simpa using not_le.mp hdone
        · rw [hupd]
          simp only [elapsed] at hle
          simp
          linarith

/-- C4: shoot succeeds only when can_shoot is on; after a successful
shoot, for any following trace of shoot/update calls with nonnegative
dts accumulating less than PLAYER_SHOOT_COOLDOWN, can_shoot is still off
and a further shoot fails; and over pure update traces whose accumulated
dt reaches the cooldown, can_shoot is back on. -/
theorem C4_shoot_cooldown_window (p : Player) (ops : List PlayerOp) :
    ((p.shoot).2 = true → p.can_shoot = true) ∧
    (p.can_shoot = true → ops_nonneg ops →
      ((elapsed ops < PLAYER_SHOOT_COOLDOWN →
          (run_ops (p.shoot).1 ops).can_shoot = false ∧
          ((run_ops (p.shoot).1 ops).shoot).2 = false) ∧
        (ops_updates_only ops → PLAYER_SHOOT_COOLDOWN ≤ elapsed ops →
          (run_ops (p.shoot).1 ops).can_shoot = true))) := by
  constructor
  · intro hfired
    by_contra hcs
    have hcs' : p.can_shoot = false := by
      cases h : p.can_shoot
      · rfl
      · exact absurd h hcs
    rw [Player.shoot, hcs'] at hfired
    simp at hfired
  · intro hcs hnn
    have hshot : (p.shoot).1 =
        { p with can_shoot := false, shoot_cooldown := PLAYER_SHOOT_COOLDOWN } := by
      rw [Player.shoot, hcs]
      simp
    constructor
    · intro hwin
      have hinv := cooldown_invariant ops (p.shoot).1 hnn (by rw [hshot]) (by rw [hshot]; exact hwin)
      refine ⟨hinv.1, ?_⟩
      rw [Player.shoot, hinv.1]
      simp
    · intro honly hreach
      exact cooldown_elapses ops (p.shoot).1 hnn honly (by rw [hshot])
        (by rw [hshot]; norm_num [PLAYER_SHOOT_COOLDOWN]) (by rw [hshot]; exact hreach)

/-- C4 witness: from a fresh player, a shot followed by a 0.1-second
update (less than the 0.3-second cooldown) leaves a second shot failing. -/
theorem C4_shoot_cooldown_window_witness :
    ((run_ops ((Player.mk_new ⟨0, 0, 0⟩).shoot).1 [PlayerOp.tick 0.1]).shoot).2 = false := by
  have h := (C4_shoot_cooldown_window (Player.mk_new ⟨0, 0, 0⟩) [PlayerOp.tick 0.1]).2
    (by rw [Player.mk_new])
    (by
      intro dt hdt
      simp at hdt
      rw [hdt]
      norm_num)
  exact (h.1 (by norm_num [elapsed, PLAYER_SHOOT_COOLDOWN])).2

/-- Each take_damage call decrements lives by one; while lives stay
positive the player record keeps its alive flag. -/
theorem take_damage_lives (p : Player) :
    (p.take_damage).lives = p.lives - 1 ∧
    (0 < p.lives - 1 → (p.take_damage).alive = p.alive) := by
  rw [Player.take_damage]
  by_cases h : p.lives - 1 ≤ 0
  · refine ⟨?_, ?_⟩
    · simp [h, Player.destroy]
    · intro hpos
      omega
  · refine ⟨?_, ?_⟩
    · simp [h]
    · intro _
      simp [h]

/-- Iterated damage: after k calls lives have dropped by k, and the
alive flag is untouched while they stay positive. -/
theorem iterate_take_damage (k : ℕ) :
    ∀ p : Player, (k : ℤ) < p.lives →
      (Player.take_damage^[k] p).lives = p.lives - k ∧
      (Player.take_damage^[k] p).alive = p.alive := by
  induction k with
  | zero =>
    intro p _
    simp
  | succ k ih =>
    intro p hk
    have h1 := take_damage_lives p
    have hlt : (k : ℤ) < (p.take_damage).lives := by
      rw [h1.1]
      push_cast at hk ⊢
      linarith
    have halive : (p.take_damage).alive = p.alive := h1.2 (by push_cast at hk ⊢; omega)
    have := ih (p.take_damage) hlt
    rw [Function.iterate_succ_apply]
    refine ⟨?_, ?_⟩
    · rw [this.1, h1.1]
      push_cast
      ring
    · rw [this.2, halive]

/-- C5: from an alive player with lives = n > 0, take_damage decrements
lives by exactly one per call; after k < n calls the player is still
alive, and the n-th call destroys it. -/
theorem C5_take_damage_lifecycle (p : Player) (n k : ℕ)
    (hn : 0 < n) (hlives : p.lives = (n : ℤ)) (halive : p.alive = true) (hk : k < n) :
    (p.take_damage).lives = p.lives - 1 ∧
    (Player.take_damage^[k] p).is_alive = true ∧
    (Player.take_damage^[n] p).is_alive = false := by
  refine ⟨(take_damage_lives p).1, ?_, ?_⟩
  · have := iterate_take_damage k p (by rw [hlives]; exact_mod_cast hk)
    rw [Player.is_alive, this.2, halive]
  · obtain ⟨m, hm⟩ : ∃ m : ℕ, n = m + 1 := ⟨n - 1, by omega⟩
    subst hm
    have hiter := iterate_take_damage m p (by rw [hlives]; exact_mod_cast Nat.lt_succ_self m)
    have hlast : (Player.take_damage^[m] p).lives = 1 := by
      rw [hiter.1, hlives]
      push_cast
      ring
    rw [Function.iterate_succ_apply', Player.is_alive, Player.take_damage]
    simp only [hlast]
    norm_num [Player.destroy]

/-- C5 witness: a fresh three-life player survives two hits and dies on
the third. -/
theorem C5_take_damage_lifecycle_witness :
    (Player.take_damage^[2] (Player.mk_new ⟨0, 0, 0⟩)).is_alive = true ∧
    (Player.take_damage^[3] (Player.mk_new ⟨0, 0, 0⟩)).is_alive = false := by
  have h := C5_take_damage_lifecycle (Player.mk_new ⟨0, 0, 0⟩) 3 2
    (by norm_num)
    (by norm_num [Player.mk_new, PLAYER_STARTING_LIVES])
    (by rw [Player.mk_new])
    (by norm_num)
  exact ⟨h.2.1, h.2.2⟩

/-- C6: Enemy.can_shoot leaves the timer unchanged and fails whenever
the timer is still positive; when the timer has expired it succeeds,
re-arming the timer to ENEMY_SHOOT_INTERVAL, exactly when the target is
strictly inside ENEMY_SHOOT_RANGE. -/
theorem C6_enemy_can_shoot (e : Enemy) (target_pos : Vector3) :
    (e.shoot_timer > 0 → e.can_shoot target_pos = (e, false)) ∧
    (e.shoot_timer ≤ 0 → e.position.distance_to target_pos < ENEMY_SHOOT_RANGE →
      e.can_shoot target_pos = ({ e with shoot_timer := ENEMY_SHOOT_INTERVAL }, true)) ∧
    (e.shoot_timer ≤ 0 → ¬ e.position.distance_to target_pos < ENEMY_SHOOT_RANGE →
      e.can_shoot target_pos = (e, false)) := by
  refine ⟨?_, ?_, ?_⟩
  · intro hpos
    rw [Enemy.can_shoot, if_neg (not_le.mpr hpos)]
  · intro hexp hin
    rw [Enemy.can_shoot, if_pos hexp, if_pos hin]
  · intro hexp hout
    rw [Enemy.can_shoot, if_pos hexp, if_neg hout]

/-- C6 witness: an enemy with a positive timer neither fires nor has its
timer changed. -/
theorem C6_enemy_can_shoot_witness :
    Enemy.can_shoot ⟨0, 0, 0⟩ cooling_enemy = (cooling_enemy, false) :=
  (C6_enemy_can_shoot cooling_enemy ⟨0, 0, 0⟩).1 (by norm_num [cooling_enemy])

/-- check_collision unfolded to the distance comparison. -/
theorem check_collision_iff (a b : Ent) :
    check_collision a b ↔ a.position.distance_to b.position < a.radius + b.radius :=
  Iff.rfl

/-- The enemy scan of one player projectile touches at most the first
colliding enemy. -/
theorem proj_vs_enemies_at_most_one (pr : Projectile) (score : ℤ) (es : List Enemy) :
    changes_at_most_one es (proj_vs_enemies pr score es).1 := by
  induction es with
  | nil =>
    exact ⟨rfl, 0, fun j _ => rfl⟩
  | cons e rest ih =>
    rw [proj_vs_enemies]
    by_cases h : check_collision pr.toEnt e.toEnt
    · rw [if_pos h]
      refine ⟨by simp, 0, ?_⟩
      intro j hj
      obtain ⟨k, rfl⟩ : ∃ k, j = k + 1 := ⟨j - 1, by omega⟩
      simp
    · rw [if_neg h]
      obtain ⟨hlen, i, hi⟩ := ih
      refine ⟨by simp [hlen], i + 1, ?_⟩
      intro j hj
      cases j with
      | zero => simp
      | succ k =>
        have hk : k ≠ i := by omega
        simpa using hi k hk

/-- The life-sphere scan of one player projectile touches at most the
first colliding sphere. -/
theorem proj_vs_spheres_at_most_one (pr : Projectile) (p : Player) (ss : List LifeSphere) :
    changes_at_most_one ss (proj_vs_spheres pr p ss).1 := by
  induction ss with
  | nil =>
    exact ⟨rfl, 0, fun j _ => rfl⟩
  | cons s rest ih =>
    rw [proj_vs_spheres]
    by_cases h : check_collision pr.toEnt s.toEnt
    · rw [if_pos h]
      refine ⟨by simp, 0, ?_⟩
      intro j hj
      obtain ⟨k, rfl⟩ : ∃ k, j = k + 1 := ⟨j - 1, by omega⟩
      simp
    · rw [if_neg h]
      obtain ⟨hlen, i, hi⟩ := ih
      refine ⟨by simp [hlen], i + 1, ?_⟩
      intro j hj
      cases j with
      | zero => simp
      | succ k =>
        have hk : k ≠ i := by omega
        simpa using hi k hk

/-- The meteorite scan never modifies meteorites; its only possible
effect is destroying the projectile. -/
theorem proj_vs_meteorites_effect (pr : Projectile) (ms : List Meteorite) :
    proj_vs_meteorites pr ms = pr ∨ proj_vs_meteorites pr ms = pr.destroy := by
  induction ms with
  | nil => exact Or.inl rfl
  | cons m rest ih =>
    rw [proj_vs_meteorites]
    by_cases h : check_collision pr.toEnt m.toEnt
    · rw [if_pos h]
      exact Or.inr rfl
    · rw [if_neg h]
      exact ih

/-- C2 (amended): within a frame, each of a player projectile's three
scans stops at its first hit - at most one enemy is touched, at most one
life sphere is touched, and the meteorite scan can only destroy the
projectile - but the scans of the later lists still run after a hit, so
a single projectile can interact with one entity from each list in the
same frame (see the counterexample). -/
theorem C2_projectile_per_list_single_hit (pr : Projectile) (score : ℤ) (p : Player)
    (es : List Enemy) (ss : List LifeSphere) (ms : List Meteorite) :
    changes_at_most_one es (proj_vs_enemies pr score es).1 ∧
    changes_at_most_one ss (proj_vs_spheres pr p ss).1 ∧
    (proj_vs_meteorites pr ms = pr ∨ proj_vs_meteorites pr ms = pr.destroy) :=
  ⟨proj_vs_enemies_at_most_one pr score es,
    proj_vs_spheres_at_most_one pr p ss,
    proj_vs_meteorites_effect pr ms⟩

/-- C2 counterexample: in a single collision-resolution phase the one
player projectile both destroys the enemy (scoring its point) and
collects the life sphere (granting a life) - two entities affected by
one projectile in one frame, because the life-sphere scan runs even
after the projectile was destroyed against the enemy. -/
theorem C2_two_interactions_counterexample :
    ((handle_collisions two_hit_state).enemies.map Enemy.is_alive = [false]) ∧
    ((handle_collisions two_hit_state).life_spheres.map LifeSphere.collected = [true]) ∧
    (handle_collisions two_hit_state).player.lives = 4 ∧
    (handle_collisions two_hit_state).score = 1 := by
  have hd_far : Vector3.distance_to ⟨0, 0, 100⟩ ⟨0, 0, 0⟩ = 100 := by
    rw [Vector3.distance_to_z]
    norm_num
  have hd_zero : Vector3.distance_to ⟨0, 0, 0⟩ ⟨0, 0, 0⟩ = 0 := by
    rw [Vector3.distance_to_z]
    norm_num
  norm_num [handle_collisions, two_hit_state, far_player, origin_enemy, origin_sphere,
    origin_projectile, Player.mk_new, PLAYER_STARTING_LIVES, player_vs_meteorites,
    player_vs_spheres, player_vs_enemies, projectiles_phase, proj_vs_enemies,
    proj_vs_spheres, proj_vs_meteorites, check_collision, BoundingSphere.intersects,
    Player.toEnt, Enemy.toEnt, LifeSphere.toEnt, Projectile.toEnt,
    Projectile.is_player_projectile, Enemy.take_damage, Enemy.destroy, Enemy.is_alive,
    Enemy.get_points, LifeSphere.collect, Player.add_life, Player.take_damage,
    Player.is_alive, Projectile.destroy, hd_far, hd_zero]

theorem update_ship_animation_meteorites (dt : ℝ) (g : GameState) :
    (update_ship_animation dt g).meteorites = g.meteorites := rfl

theorem handle_collisions_meteorites (g : GameState) :
    (handle_collisions g).meteorites = g.meteorites := rfl

theorem cleanup_entities_meteorites (g : GameState) :
    (cleanup_entities g).meteorites = g.meteorites := rfl

theorem update_spawning_meteorites (o : SpawnOracle) (dt : ℝ) (g : GameState) :
    (update_spawning o dt g).meteorites = g.meteorites := by
  rw [update_spawning]
  split
  · split <;> rfl
  · split <;> rfl

theorem Meteorite.update_alive (dt : ℝ) (m : Meteorite) :
    (Meteorite.update dt m).alive = m.alive := rfl

theorem Game.update_meteorites (o : SpawnOracle) (ticks dt : ℝ) (g : GameState) :
    (Game.update o ticks dt g).meteorites =
      if g.paused || g.game_over then g.meteorites
      else g.meteorites.map (Meteorite.update dt) := by
  rw [Game.update]
  by_cases h : g.paused || g.game_over
  · rw [if_pos h, if_pos h]
  · rw [if_neg h, if_neg h]
    simp only [cleanup_entities_meteorites, handle_collisions_meteorites,
      update_spawning_meteorites, update_ship_animation_meteorites]

/-- C10: a full tick never adds or removes a meteorite and never clears
a meteorite's alive flag (there is no damage or destroy path for
meteorites, the collision phase leaves the meteorite list untouched, and
the cleanup purge does not filter it). -/
theorem C10_meteorites_fixed (o : SpawnOracle) (ticks dt : ℝ) (g : GameState) :
    (Game.update o ticks dt g).meteorites.length = g.meteorites.length ∧
    List.Forall₂ (fun m2 m1 => m2.alive = m1.alive ∧ m2.radius = m1.radius)
      (Game.update o ticks dt g).meteorites g.meteorites ∧
    (handle_collisions g).meteorites = g.meteorites ∧
    (cleanup_entities g).meteorites = g.meteorites := by
  rw [Game.update_meteorites]
  by_cases h : g.paused || g.game_over
  · rw [if_pos h]
    refine ⟨rfl, ?_, rfl, rfl⟩
    rw [List.forall₂_same]
    intro m _
    exact ⟨rfl, rfl⟩
  · rw [if_neg h]
    refine ⟨List.length_map _ _, ?_, rfl, rfl⟩
    rw [List.forall₂_map_left_iff, List.forall₂_same]
    intro m _
    exact ⟨rfl, rfl⟩

theorem Vector3.add_zero_vec (v : Vector3) : v + (⟨0, 0, 0⟩ : Vector3) = v := by
  ext <;> simp [Vector3.add_def]

theorem player_update_zero (p : Player) : Player.update 0 p = p := by
  rw [Player.update]
  simp only [Vector3.add_mul_zero, sub_zero]
  by_cases hc : p.shoot_cooldown > 0
  · simp only [if_pos hc, if_neg (not_le.mpr hc)]
    by_cases hf : p.damage_flash_timer > 0
    · simp [hf]
    · simp [hf]
  · simp only [if_neg hc]
    by_cases hf : p.damage_flash_timer > 0
    · simp [hf]
    · simp [hf]

theorem enemy_update_zero (pos : Vector3) (e : Enemy) :
    Enemy.update 0 pos e = e.move_toward_target pos := by
  rw [Enemy.update]
  simp only [Vector3.add_mul_zero, sub_zero, zero_mul]
  rw [Vector3.add_zero_vec]

theorem meteorite_update_zero (m : Meteorite) : Meteorite.update 0 m = m := by
  rw [Meteorite.update]
  simp only [Vector3.add_mul_zero, mul_zero]
  rw [Vector3.add_zero_vec]

theorem sphere_update_zero (ticks : ℝ) (s : LifeSphere) :
    LifeSphere.update ticks 0 s = bob ticks s := by
  rw [LifeSphere.update, bob]
  simp only [Vector3.add_mul_zero, zero_mul]
  rw [Vector3.add_zero_vec]

theorem projectile_update_zero (pr : Projectile) (h : pr.age < pr.lifetime) :
    Projectile.update 0 pr = pr := by
  rw [Projectile.update]
  simp only [Vector3.add_mul_zero, add_zero]
  rw [if_neg (not_le.mpr h)]

/-- Enemy.can_shoot is a no-op returning false while the timer is still
counting down. -/
theorem Enemy.can_shoot_timer_pos {e : Enemy} (pos : Vector3) (h : 0 < e.shoot_timer) :
    e.can_shoot pos = (e, false) := by
  rw [Enemy.can_shoot, if_neg (not_le.mpr h)]

/-- With dt = 0 and all shoot timers still positive, the enemy loop only
re-targets velocities and fires nothing. -/
theorem enemies_step_zero (pos : Vector3) (es : List Enemy)
    (h : ∀ e ∈ es, 0 < e.shoot_timer) :
    enemies_step 0 pos es = (es.map (Enemy.move_toward_target pos), []) := by
  induction es with
  | nil => rfl
  | cons e rest ih =>
    have he : 0 < e.shoot_timer := h e (List.mem_cons_self _ _)
    have hrest : ∀ e ∈ rest, 0 < e.shoot_timer :=
      fun x hx => h x (List.mem_cons_of_mem _ hx)
    rw [enemies_step, enemy_update_zero]
    have htimer : 0 < (e.move_toward_target pos).shoot_timer := he
    rw [Enemy.can_shoot_timer_pos pos htimer, ih hrest]
    simp

theorem player_vs_meteorites_no_hit (p : Player) (cam : Camera) (score : ℤ)
    (ms : List Meteorite) (h : ∀ m ∈ ms, ¬ check_collision p.toEnt m.toEnt) :
    player_vs_meteorites p cam score ms = (p, cam, score) := by
  induction ms with
  | nil => rfl
  | cons m rest ih =>
    rw [player_vs_meteorites, if_neg (h m (List.mem_cons_self _ _))]
    exact ih (fun x hx => h x (List.mem_cons_of_mem _ hx))

theorem player_vs_spheres_no_hit (p : Player) (ss : List LifeSphere)
    (h : ∀ s ∈ ss, ¬ check_collision p.toEnt s.toEnt) :
    player_vs_spheres p ss = (p, ss) := by
  induction ss with
  | nil => rfl
  | cons s rest ih =>
    rw [player_vs_spheres, if_neg (h s (List.mem_cons_self _ _)),
      ih (fun x hx => h x (List.mem_cons_of_mem _ hx))]

theorem player_vs_enemies_no_hit (p : Player) (es : List Enemy)
    (h : ∀ e ∈ es, ¬ check_collision p.toEnt e.toEnt) :
    player_vs_enemies p es = (p, es) := by
  induction es with
  | nil => rfl
  | cons e rest ih =>
    rw [player_vs_enemies, if_neg (h e (List.mem_cons_self _ _)),
      ih (fun x hx => h x (List.mem_cons_of_mem _ hx))]

theorem proj_vs_enemies_no_hit (pr : Projectile) (score : ℤ) (es : List Enemy)
    (h : ∀ e ∈ es, ¬ check_collision pr.toEnt e.toEnt) :
    proj_vs_enemies pr score es = (es, pr, score) := by
  induction es with
  | nil => rfl
  | cons e rest ih =>
    rw [proj_vs_enemies, if_neg (h e (List.mem_cons_self _ _)),
      ih (fun x hx => h x (List.mem_cons_of_mem _ hx))]

theorem proj_vs_spheres_no_hit (pr : Projectile) (p : Player) (ss : List LifeSphere)
    (h : ∀ s ∈ ss, ¬ check_collision pr.toEnt s.toEnt) :
    proj_vs_spheres pr p ss = (ss, pr, p) := by
  induction ss with
  | nil => rfl
  | cons s rest ih =>
    rw [proj_vs_spheres, if_neg (h s (List.mem_cons_self _ _)),
      ih (fun x hx => h x (List.mem_cons_of_mem _ hx))]

theorem proj_vs_meteorites_no_hit (pr : Projectile) (ms : List Meteorite)
    (h : ∀ m ∈ ms, ¬ check_collision pr.toEnt m.toEnt) :
    proj_vs_meteorites pr ms = pr := by
  induction ms with
  | nil => rfl
  | cons m rest ih =>
    rw [proj_vs_meteorites, if_neg (h m (List.mem_cons_self _ _))]
    exact ih (fun x hx => h x (List.mem_cons_of_mem _ hx))

theorem projectiles_phase_no_hit (ms : List Meteorite) (prs : List Projectile)
    (es : List Enemy) (ss : List LifeSphere) (p : Player) (score : ℤ)
    (hno_e : ∀ pr ∈ prs, ∀ e ∈ es, ¬ check_collision pr.toEnt e.toEnt)
    (hno_s : ∀ pr ∈ prs, ∀ s ∈ ss, ¬ check_collision pr.toEnt s.toEnt)
    (hno_m : ∀ pr ∈ prs, ∀ m ∈ ms, ¬ check_collision pr.toEnt m.toEnt)
    (hno_p : ∀ pr ∈ prs, ¬ check_collision pr.toEnt p.toEnt) :
    projectiles_phase ms prs es ss p score = (prs, es, ss, p, score) := by
  induction prs with
  | nil => rfl
  | cons pr rest ih =>
    have hmem := List.mem_cons_self pr rest
    have ihrest := ih
      (fun x hx => hno_e x (List.mem_cons_of_mem _ hx))
      (fun x hx => hno_s x (List.mem_cons_of_mem _ hx))
      (fun x hx => hno_m x (List.mem_cons_of_mem _ hx))
      (fun x hx => hno_p x (List.mem_cons_of_mem _ hx))
    rw [projectiles_phase]
    by_cases hown : pr.is_player_projectile
    · rw [if_pos hown, proj_vs_enemies_no_hit pr score es (hno_e pr hmem)]
      simp only [proj_vs_spheres_no_hit pr p ss (hno_s pr hmem),
        proj_vs_meteorites_no_hit pr ms (hno_m pr hmem), ihrest]
    · rw [if_neg hown, if_neg (hno_p pr hmem)]
      simp only [proj_vs_meteorites_no_hit pr ms (hno_m pr hmem), ihrest]

/-- With nothing overlapping and the player alive, the collision phase
is the identity. -/
theorem handle_collisions_no_hit (g : GameState)
    (halive : g.player.alive = true)
    (hpm : ∀ m ∈ g.meteorites, ¬ check_collision g.player.toEnt m.toEnt)
    (hps : ∀ s ∈ g.life_spheres, ¬ check_collision g.player.toEnt s.toEnt)
    (hpe : ∀ e ∈ g.enemies, ¬ check_collision g.player.toEnt e.toEnt)
    (hno_e : ∀ pr ∈ g.projectiles, ∀ e ∈ g.enemies, ¬ check_collision pr.toEnt e.toEnt)
    (hno_s : ∀ pr ∈ g.projectiles, ∀ s ∈ g.life_spheres, ¬ check_collision pr.toEnt s.toEnt)
    (hno_m : ∀ pr ∈ g.projectiles, ∀ m ∈ g.meteorites, ¬ check_collision pr.toEnt m.toEnt)
    (hno_p : ∀ pr ∈ g.projectiles, ¬ check_collision pr.toEnt g.player.toEnt) :
    handle_collisions g = g := by
  rw [handle_collisions]
  simp only [player_vs_meteorites_no_hit g.player g.camera g.score g.meteorites hpm,
    player_vs_spheres_no_hit g.player g.life_spheres hps,
    player_vs_enemies_no_hit g.player g.enemies hpe,
    projectiles_phase_no_hit g.meteorites g.projectiles g.enemies g.life_spheres
      g.player g.score hno_e hno_s hno_m hno_p]
  rw [show g.player.is_alive = true from halive, if_pos rfl]

/-- Purging with every entity alive is the identity. -/
theorem cleanup_entities_all_alive (g : GameState)
    (he : ∀ e ∈ g.enemies, e.alive = true)
    (hs : ∀ s ∈ g.life_spheres, s.alive = true)
    (hp : ∀ pr ∈ g.projectiles, pr.alive = true) :
    cleanup_entities g = g := by
  rw [cleanup_entities]
  rw [List.filter_eq_self.mpr (show ∀ e ∈ g.enemies, Enemy.is_alive e = true from he),
    List.filter_eq_self.mpr (show ∀ s ∈ g.life_spheres, LifeSphere.is_alive s = true from hs),
    List.filter_eq_self.mpr (show ∀ pr ∈ g.projectiles, Projectile.is_alive pr = true from hp)]

/-- Spawn timers short of their intervals just accumulate dt. -/
theorem update_spawning_no_spawn (o : SpawnOracle) (dt : ℝ) (g : GameState)
    (h1 : g.enemy_spawn_timer + dt < ENEMY_SPAWN_INTERVAL)
    (h2 : g.life_sphere_spawn_timer + dt < LIFE_SPHERE_SPAWN_INTERVAL) :
    update_spawning o dt g =
      { g with enemy_spawn_timer := g.enemy_spawn_timer + dt,
               life_sphere_spawn_timer := g.life_sphere_spawn_timer + dt } := by
  rw [update_spawning]
  rw [if_neg (not_le.mpr h1)]
  rw [if_neg (not_le.mpr h2)]

/-- Master characterization of a dt = 0 tick in the Running state when
no collision pair overlaps, no timer is due, and everything is alive:
only the ship-animation fields and the camera-delta bookkeeping change,
the enemies re-target their velocities, and each life sphere is moved by
the wall-clock bob. -/
theorem zero_dt_tick (o : SpawnOracle) (ticks : ℝ) (g : GameState)
    (hp : g.paused = false) (hgo : g.game_over = false)
    (halive : g.player.alive = true)
    (he_alive : ∀ e ∈ g.enemies, e.alive = true)
    (hs_alive : ∀ s ∈ g.life_spheres, s.alive = true)
    (hpr_alive : ∀ pr ∈ g.projectiles, pr.alive = true)
    (hpr_age : ∀ pr ∈ g.projectiles, pr.age < pr.lifetime)
    (he_timer : ∀ e ∈ g.enemies, 0 < e.shoot_timer)
    (hsp1 : g.enemy_spawn_timer < ENEMY_SPAWN_INTERVAL)
    (hsp2 : g.life_sphere_spawn_timer < LIFE_SPHERE_SPAWN_INTERVAL)
    (hpm : ∀ m ∈ g.meteorites, ¬ check_collision g.player.toEnt m.toEnt)
    (hps : ∀ s ∈ g.life_spheres, ¬ check_collision g.player.toEnt (bob ticks s).toEnt)
    (hpe : ∀ e ∈ g.enemies, ¬ check_collision g.player.toEnt e.toEnt)
    (hno_e : ∀ pr ∈ g.projectiles, ∀ e ∈ g.enemies, ¬ check_collision pr.toEnt e.toEnt)
    (hno_s : ∀ pr ∈ g.projectiles, ∀ s ∈ g.life_spheres,
      ¬ check_collision pr.toEnt (bob ticks s).toEnt)
    (hno_m : ∀ pr ∈ g.projectiles, ∀ m ∈ g.meteorites, ¬ check_collision pr.toEnt m.toEnt)
    (hno_p : ∀ pr ∈ g.projectiles, ¬ check_collision pr.toEnt g.player.toEnt) :
    Game.update o ticks 0 g =
      { update_ship_animation 0 g with
          enemies := g.enemies.map (Enemy.move_toward_target g.player.position),
          life_spheres := g.life_spheres.map (bob ticks) } := by
  have hAp : (update_ship_animation 0 g).player = g.player := rfl
  have hAe : (update_ship_animation 0 g).enemies = g.enemies := rfl
  have hAm : (update_ship_animation 0 g).meteorites = g.meteorites := rfl
  have hAs : (update_ship_animation 0 g).life_spheres = g.life_spheres := rfl
  have hApr : (update_ship_animation 0 g).projectiles = g.projectiles := rfl
  have hstep2 : enemies_step 0 g.player.position g.enemies =
      (g.enemies.map (Enemy.move_toward_target g.player.position), []) :=
    enemies_step_zero g.player.position g.enemies he_timer
  have hmets : g.meteorites.map (Meteorite.update 0) = g.meteorites := by
    rw [List.map_congr_left (fun m _ => meteorite_update_zero m)]
    exact List.map_id' g.meteorites
  have hsph : g.life_spheres.map (LifeSphere.update ticks 0) =
      g.life_spheres.map (bob ticks) :=
    List.map_congr_left (fun s _ => sphere_update_zero ticks s)
  have hprojmap : g.projectiles.map (Projectile.update 0) = g.projectiles := by
    rw [List.map_congr_left (fun pr hpr => projectile_update_zero pr (hpr_age pr hpr))]
    exact List.map_id' g.projectiles
  have h0 : Game.update o ticks 0 g =
      cleanup_entities (handle_collisions (update_spawning o 0
        { update_ship_animation 0 g with
            player := Player.update 0 (update_ship_animation 0 g).player
            enemies := (enemies_step 0 (Player.update 0 (update_ship_animation 0 g).player).position
              (update_ship_animation 0 g).enemies).1
            meteorites := (update_ship_animation 0 g).meteorites.map (Meteorite.update 0)
            life_spheres := (update_ship_animation 0 g).life_spheres.map (LifeSphere.update ticks 0)
            projectiles := ((update_ship_animation 0 g).projectiles ++
              (enemies_step 0 (Player.update 0 (update_ship_animation 0 g).player).position
                (update_ship_animation 0 g).enemies).2).map (Projectile.update 0) })) := by
    rw [Game.update, if_neg (by rw [hp, hgo]; simp)]
  have hrec : ({ update_ship_animation 0 g with
          player := Player.update 0 (update_ship_animation 0 g).player
          enemies := (enemies_step 0 (Player.update 0 (update_ship_animation 0 g).player).position
            (update_ship_animation 0 g).enemies).1
          meteorites := (update_ship_animation 0 g).meteorites.map (Meteorite.update 0)
          life_spheres := (update_ship_animation 0 g).life_spheres.map (LifeSphere.update ticks 0)
          projectiles := ((update_ship_animation 0 g).projectiles ++
            (enemies_step 0 (Player.update 0 (update_ship_animation 0 g).player).position
              (update_ship_animation 0 g).enemies).2).map (Projectile.update 0) } : GameState) =
      { update_ship_animation 0 g with
          enemies := g.enemies.map (Enemy.move_toward_target g.player.position),
          life_spheres := g.life_spheres.map (bob ticks) } := by
    simp only [hAp, hAe, hAm, hAs, hApr, player_update_zero, hstep2, List.append_nil,
      hmets, hsph, hprojmap]
  rw [h0, hrec]
  have hG2p : ({ update_ship_animation 0 g with
      enemies := g.enemies.map (Enemy.move_toward_target g.player.position),
      life_spheres := g.life_spheres.map (bob ticks) } : GameState).player = g.player := rfl
  have hspawn : update_spawning o 0
      { update_ship_animation 0 g with
          enemies := g.enemies.map (Enemy.move_toward_target g.player.position),
          life_spheres := g.life_spheres.map (bob ticks) } =
      { update_ship_animation 0 g with
          enemies := g.enemies.map (Enemy.move_toward_target g.player.position),
          life_spheres := g.life_spheres.map (bob ticks) } := by
    rw [update_spawning_no_spawn o 0 _ (by rw [add_zero]; exact hsp1) (by rw [add_zero]; exact hsp2)]
    rw [add_zero, add_zero]
  rw [hspawn]
  have hcol : handle_collisions
      { update_ship_animation 0 g with
          enemies := g.enemies.map (Enemy.move_toward_target g.player.position),
          life_spheres := g.life_spheres.map (bob ticks) } =
      { update_ship_animation 0 g with
          enemies := g.enemies.map (Enemy.move_toward_target g.player.position),
          life_spheres := g.life_spheres.map (bob ticks) } := by
    apply handle_collisions_no_hit
    · exact halive
    · exact hpm
    · intro s' hs'
      obtain ⟨s, hsmem, rfl⟩ := List.mem_map.mp hs'
      exact hps s hsmem
    · intro e' he'
      obtain ⟨e, hemem, rfl⟩ := List.mem_map.mp he'
      exact hpe e hemem
    · intro pr hpr e' he'
      obtain ⟨e, hemem, rfl⟩ := List.mem_map.mp he'
      exact hno_e pr hpr e hemem
    · intro pr hpr s' hs'
      obtain ⟨s, hsmem, rfl⟩ := List.mem_map.mp hs'
      exact hno_s pr hpr s hsmem
    · exact hno_m
    · exact hno_p
  rw [hcol]
  apply cleanup_entities_all_alive
  · intro e' he'
    obtain ⟨e, hemem, rfl⟩ := List.mem_map.mp he'
    exact he_alive e hemem
  · intro s' hs'
    obtain ⟨s, hsmem, rfl⟩ := List.mem_map.mp hs'
    exact hs_alive s hsmem
  · exact hpr_alive

/-- C3 (amended): a full update tick with dt = 0 in the Running state -
provided no collision pair currently overlaps, no spawn or enemy-shoot
timer is due, and all listed entities are alive and unexpired - leaves
the player, camera, meteorites and projectiles unchanged, preserves
every enemy's position, shoot timer, health and alive flag, keeps the
score, both spawn timers and the run-state, but moves each life
sphere's y coordinate by the wall-clock bob sin(0.002 ticks) / 100,
which is nonzero for most wall-clock samples (so positions are NOT all
unchanged, see the counterexample). -/
theorem C3_zero_dt_tick (o : SpawnOracle) (ticks : ℝ) (g : GameState)
    (hp : g.paused = false) (hgo : g.game_over = false)
    (halive : g.player.alive = true)
    (he_alive : ∀ e ∈ g.enemies, e.alive = true)
    (hs_alive : ∀ s ∈ g.life_spheres, s.alive = true)
    (hpr_alive : ∀ pr ∈ g.projectiles, pr.alive = true)
    (hpr_age : ∀ pr ∈ g.projectiles, pr.age < pr.lifetime)
    (he_timer : ∀ e ∈ g.enemies, 0 < e.shoot_timer)
    (hsp1 : g.enemy_spawn_timer < ENEMY_SPAWN_INTERVAL)
    (hsp2 : g.life_sphere_spawn_timer < LIFE_SPHERE_SPAWN_INTERVAL)
    (hpm : ∀ m ∈ g.meteorites, ¬ check_collision g.player.toEnt m.toEnt)
    (hps : ∀ s ∈ g.life_spheres, ¬ check_collision g.player.toEnt (bob ticks s).toEnt)
    (hpe : ∀ e ∈ g.enemies, ¬ check_collision g.player.toEnt e.toEnt)
    (hno_e : ∀ pr ∈ g.projectiles, ∀ e ∈ g.enemies, ¬ check_collision pr.toEnt e.toEnt)
    (hno_s : ∀ pr ∈ g.projectiles, ∀ s ∈ g.life_spheres,
      ¬ check_collision pr.toEnt (bob ticks s).toEnt)
    (hno_m : ∀ pr ∈ g.projectiles, ∀ m ∈ g.meteorites, ¬ check_collision pr.toEnt m.toEnt)
    (hno_p : ∀ pr ∈ g.projectiles, ¬ check_collision pr.toEnt g.player.toEnt) :
    (Game.update o ticks 0 g).player = g.player ∧
    (Game.update o ticks 0 g).camera = g.camera ∧
    (Game.update o ticks 0 g).meteorites = g.meteorites ∧
    (Game.update o ticks 0 g).projectiles = g.projectiles ∧
    (Game.update o ticks 0 g).life_spheres = g.life_spheres.map (bob ticks) ∧
    List.Forall₂ (fun e2 e1 => e2.position = e1.position ∧ e2.shoot_timer = e1.shoot_timer ∧
      e2.health = e1.health ∧ e2.alive = e1.alive)
      (Game.update o ticks 0 g).enemies g.enemies ∧
    (Game.update o ticks 0 g).score = g.score ∧
    (Game.update o ticks 0 g).enemy_spawn_timer = g.enemy_spawn_timer ∧
    (Game.update o ticks 0 g).life_sphere_spawn_timer = g.life_sphere_spawn_timer ∧
    (Game.update o ticks 0 g).paused = false ∧
    (Game.update o ticks 0 g).game_over = false := by
  rw [zero_dt_tick o ticks g hp hgo halive he_alive hs_alive hpr_alive hpr_age he_timer
    hsp1 hsp2 hpm hps hpe hno_e hno_s hno_m hno_p]
  refine ⟨rfl, rfl, rfl, rfl, rfl, ?_, rfl, rfl, rfl, hp, hgo⟩
  rw [show ({ update_ship_animation 0 g with
      enemies := g.enemies.map (Enemy.move_toward_target g.player.position),
      life_spheres := g.life_spheres.map (bob ticks) } : GameState).enemies =
      g.enemies.map (Enemy.move_toward_target g.player.position) from rfl]
  rw [List.forall₂_map_left_iff, List.forall₂_same]
  intro e _
  exact ⟨rfl, rfl, rfl, rfl⟩

/-- C3 witness: on the empty running state a dt = 0 tick keeps the
player and the score. -/
theorem C3_zero_dt_tick_witness :
    (Game.update zero_oracle 0 0 quiet_state).player = quiet_state.player ∧
    (Game.update zero_oracle 0 0 quiet_state).score = quiet_state.score := by
  have h := C3_zero_dt_tick zero_oracle 0 quiet_state rfl rfl rfl
    (by simp [quiet_state]) (by simp [quiet_state]) (by simp [quiet_state])
    (by simp [quiet_state]) (by simp [quiet_state])
    (by norm_num [quiet_state, ENEMY_SPAWN_INTERVAL])
    (by norm_num [quiet_state, LIFE_SPHERE_SPAWN_INTERVAL])
    (by simp [quiet_state]) (by simp [quiet_state]) (by simp [quiet_state])
    (by simp [quiet_state]) (by simp [quiet_state]) (by simp [quiet_state])
    (by simp [quiet_state])
  exact ⟨h.1, h.2.2.2.2.2.2.1⟩

/-- C3 counterexample: one update tick with dt = 0 (at wall-clock sample
500 ms) moves the life sphere's y coordinate from 0 to sin(1)/100,
which is nonzero - so a zero-dt tick does NOT leave every entity
position unchanged.  The sphere bob reads the wall clock, not dt. -/
theorem C3_zero_dt_counterexample :
    (Game.update zero_oracle 500 0 bob_state).life_spheres.map (fun s => s.position.y)
      = [Real.sin 1 * 0.01] ∧
    bob_state.life_spheres.map (fun s => s.position.y) = [0] ∧
    Real.sin 1 * 0.01 ≠ 0 := by
  have hsin : 0 < Real.sin 1 :=
    Real.sin_pos_of_pos_of_lt_pi one_pos (by linarith [Real.pi_gt_three])
  have hsphere : ∀ s ∈ bob_state.life_spheres,
      ¬ check_collision bob_state.player.toEnt (bob 500 s).toEnt := by
    intro s hs
    have hs' : s = far_sphere := by simpa [bob_state] using hs
    subst hs'
    rw [check_collision_iff]
    intro hlt
    have hz := Vector3.distance_to_ge_z (bob_state.player.toEnt).position
      ((bob 500 far_sphere).toEnt).position
    rw [show ((bob_state.player.toEnt).position).z = 0 from rfl,
      show (((bob 500 far_sphere).toEnt).position).z = -50 from rfl] at hz
    have hr1 : bob_state.player.toEnt.radius = 2 := by
      norm_num [bob_state, Player.mk_new, Player.toEnt]
    have hr2 : (bob 500 far_sphere).toEnt.radius = 1.5 := by
      norm_num [bob, far_sphere, LifeSphere.toEnt]
    rw [hr1, hr2] at hlt
    have habs : |(0 : ℝ) - (-50)| = 50 := by norm_num
    rw [habs] at hz
    linarith
  have h := zero_dt_tick zero_oracle 500 bob_state rfl rfl rfl
    (by simp [bob_state]) (by simp [bob_state, far_sphere])
    (by simp [bob_state]) (by simp [bob_state]) (by simp [bob_state])
    (by norm_num [bob_state, ENEMY_SPAWN_INTERVAL])
    (by norm_num [bob_state, LIFE_SPHERE_SPAWN_INTERVAL])
    (by simp [bob_state]) hsphere (by simp [bob_state]) (by simp [bob_state])
    (by simp [bob_state]) (by simp [bob_state]) (by simp [bob_state])
  refine ⟨?_, ?_, ?_⟩
  · rw [show (Game.update zero_oracle 500 0 bob_state).life_spheres =
        ({ update_ship_animation 0 bob_state with
            enemies := bob_state.enemies.map
              (Enemy.move_toward_target bob_state.player.position),
            life_spheres := bob_state.life_spheres.map (bob 500) } : GameState).life_spheres
      from by rw [h]]
    rw [show ({ update_ship_animation 0 bob_state with
        enemies := bob_state.enemies.map (Enemy.move_toward_target bob_state.player.position),
        life_spheres := bob_state.life_spheres.map (bob 500) } : GameState).life_spheres =
        bob_state.life_spheres.map (bob 500) from rfl]
    rw [show bob_state.life_spheres = [far_sphere] from rfl]
    simp only [List.map_cons, List.map_nil, List.cons.injEq, and_true]
    rw [show (bob 500 far_sphere).position.y =
        far_sphere.position.y + Real.sin ((500 : ℝ) * 0.002) * 0.01 from rfl]
    rw [show far_sphere.position.y = 0 from rfl]
    norm_num
  · rw [show bob_state.life_spheres = [far_sphere] from rfl]
    simp only [List.map_cons, List.map_nil, List.cons.injEq, and_true]
    rfl
  · exact mul_ne_zero (ne_of_gt hsin) (by norm_num)

end SpaceShooter
